import Mathlib

/-!
# Verification of `dphox/passive.py` against its specification

This file shallowly embeds the component constructors of `dphox/passive.py`
(`DC`, `Cross`, `Array`, `WaveguideDevice`, `StraightGrating`, `FocusingGrating`,
`TapDC`) in Lean 4 and settles the specification claims about them.

Geometry is modelled over `ℚ` (coordinates, widths, angles in degrees); the one
formula that needs transcendental functions (the `FocusingGrating` waveguide
offset) is modelled over `ℝ`.  Code of the repository that is not in the sample
(`pattern.py`, `parametric.py`, `device.py`: the `Pattern` transform operations,
the curve generators, `Device`) is modelled from the specification document and
each such definition carries a doc comment starting `Modelled from the spec:`.
Python exceptions are modelled with `Except PyErr`.
-/

namespace Dphox

/-- A Python exception, as observable at the construction-call boundary. -/
inductive PyErr where
  | attributeError (name : String)
  | keyError (name : String)
  | valueError (msg : String)
  | typeError (msg : String)
  | indexError (msg : String)
deriving DecidableEq

/-- A 2D point with rational coordinates. -/
structure Pt where
  x : ℚ
  y : ℚ
deriving DecidableEq

/-- A polygon, given by its vertex list. -/
abbrev Poly := List Pt

/-- A named attachment point of a `Pattern`: position, orientation angle in
degrees (0 = pointing in +x) and width (`pattern.py`'s `Port`, modelled from
the spec: "Port — a named attachment point: position (x, y), orientation angle
(degrees, 0 = pointing in +x), associated width"). -/
structure Port where
  x : ℚ
  y : ℚ
  a : ℚ := 0
  w : ℚ := 1
deriving DecidableEq

instance : Inhabited Port := ⟨{ x := 0, y := 0 }⟩

/-- Association-list lookup for port maps and attribute dictionaries. -/
def pfind {α : Type} (m : List (String × α)) (k : String) : Option α :=
  match m with
  | [] => none
  | (k', v) :: rest => if k' = k then some v else pfind rest k

/-- The base geometric entity (`pattern.py`'s `Pattern`, modelled from the
spec: "aggregate of one-or-more Polygon Regions ... + a mapping from port name
to Port").  The reference list for structural decomposition is kept on the
composite records that use it. -/
structure Pattern where
  polys : List Poly
  port : List (String × Port) := []
deriving DecidableEq

instance : Inhabited Pattern := ⟨{ polys := [] }⟩

/-- Maximum of `a` and `b`, written with an explicit `if` so that concrete
evaluations unfold predictably. -/
def qmax2 (a b : ℚ) : ℚ := if a ≤ b then b else a

/-- Minimum of `a` and `b`. -/
def qmin2 (a b : ℚ) : ℚ := if a ≤ b then a else b

/-- All vertices of a list of polygons. -/
def ptsOf (ps : List Poly) : List Pt := ps.flatten

/-- Fold a coordinate projection over a nonempty point list taking maxima
(0 on the empty list). -/
def foldMax (f : Pt → ℚ) : List Pt → ℚ
  | [] => 0
  | p :: ps => ps.foldl (fun acc q => qmax2 acc (f q)) (f p)

/-- Fold a coordinate projection over a nonempty point list taking minima
(0 on the empty list). -/
def foldMin (f : Pt → ℚ) : List Pt → ℚ
  | [] => 0
  | p :: ps => ps.foldl (fun acc q => qmin2 acc (f q)) (f p)

/-- Least x-coordinate of the vertices of a polygon list. -/
def polysMinX (ps : List Poly) : ℚ := foldMin Pt.x (ptsOf ps)

/-- Greatest x-coordinate of the vertices of a polygon list. -/
def polysMaxX (ps : List Poly) : ℚ := foldMax Pt.x (ptsOf ps)

/-- Least y-coordinate of the vertices of a polygon list. -/
def polysMinY (ps : List Poly) : ℚ := foldMin Pt.y (ptsOf ps)

/-- Greatest y-coordinate of the vertices of a polygon list. -/
def polysMaxY (ps : List Poly) : ℚ := foldMax Pt.y (ptsOf ps)

/-- Bounding-box extent of a polygon list (`Pattern.size`, modelled from the
spec: "`size` (bounding-box extent)"). -/
def polysSize (ps : List Poly) : ℚ × ℚ :=
  (polysMaxX ps - polysMinX ps, polysMaxY ps - polysMinY ps)

/-- Bounding-box center of a polygon list (`Pattern.center`, modelled from the
spec: "`center` (centroid or bbox center — must be documented consistently)";
documented here, as in the source library, as the bounding-box center). -/
def polysCenter (ps : List Poly) : ℚ × ℚ :=
  ((polysMinX ps + polysMaxX ps) / 2, (polysMinY ps + polysMaxY ps) / 2)

/-- Translate a point. -/
def Pt.trans (p : Pt) (dx dy : ℚ) : Pt := ⟨p.x + dx, p.y + dy⟩

/-- Translate a port: position moves, orientation and width are unchanged. -/
def Port.trans (p : Port) (dx dy : ℚ) : Port := { p with x := p.x + dx, y := p.y + dy }

/-- Modelled from the spec: `translate(dx, dy)` applies the translation "to
every owned polygon and every Port's position+orientation consistently". -/
def Pattern.translate (p : Pattern) (dx dy : ℚ) : Pattern :=
  { polys := p.polys.map (fun poly => poly.map (Pt.trans · dx dy)),
    port := p.port.map (fun kv => (kv.1, kv.2.trans dx dy)) }

def Pattern.size (p : Pattern) : ℚ × ℚ := polysSize p.polys

def Pattern.center (p : Pattern) : ℚ × ℚ := polysCenter p.polys

/-- Exact cosine, in degrees, of the quarter-turn angles.  Every rotation
performed by the constructions in `passive.py` is by a multiple of 90°
(`Cross` rotates by 90, `to` docks ports whose orientations are multiples of
180), for which this function is exact; other angles, which never occur below,
are mapped to 0. -/
def cosDeg (θ : ℚ) : ℚ :=
  if θ.den = 1 ∧ θ.num % 90 = 0 then [(1 : ℚ), 0, -1, 0].getD (θ.num / 90 % 4).toNat 0
  else 0

/-- Exact sine in degrees for quarter-turn angles: `sin θ = cos (θ - 90)`. -/
def sinDeg (θ : ℚ) : ℚ := cosDeg (θ - 90)

/-- Rotate a point by `θ` degrees about the origin point `o`. -/
def Pt.rot (p : Pt) (θ : ℚ) (o : Pt) : Pt :=
  ⟨o.x + cosDeg θ * (p.x - o.x) - sinDeg θ * (p.y - o.y),
   o.y + sinDeg θ * (p.x - o.x) + cosDeg θ * (p.y - o.y)⟩

/-- Rotate a port: its position rotates, its orientation gains `θ`. -/
def Port.rot (p : Port) (θ : ℚ) (o : Pt) : Port :=
  let q := Pt.rot ⟨p.x, p.y⟩ θ o
  { x := q.x, y := q.y, a := p.a + θ, w := p.w }

/-- Modelled from the spec: `rotate(angle, origin)` applies the rotation to
every owned polygon and every Port's position+orientation consistently. -/
def Pattern.rotate (p : Pattern) (θ : ℚ) (o : Pt) : Pattern :=
  { polys := p.polys.map (fun poly => poly.map (Pt.rot · θ o)),
    port := p.port.map (fun kv => (kv.1, kv.2.rot θ o)) }

/-- Modelled from the spec: `align` translates the pattern so that a
computable anchor (here the bounding-box center) coincides with the target
anchor; `passive.py` calls `align()` with no argument, whose default target in
the source library is the origin. -/
def Pattern.alignOrigin (p : Pattern) : Pattern :=
  p.translate (-(polysCenter p.polys).1) (-(polysCenter p.polys).2)

/-- Modelled from the spec: `halign(x, left)` translates the pattern so that
the left (`left = true`) or right edge of the combined bounding box sits at
`x`. -/
def Pattern.halignTo (p : Pattern) (x : ℚ) (left : Bool) : Pattern :=
  p.translate (x - (if left then polysMinX p.polys else polysMaxX p.polys)) 0

/-- Modelled from the spec (§4.2, Path-to-Polygon Converter): sweep a
trajectory by `±w/2` along the local normal and close the two rails into one
region; "the converter also derives the two endpoint Ports directly from the
trajectory's first/last point and local tangent, assigning them width equal to
the path width at that end".  The trajectories produced below begin and end
with horizontal tangent pointing in +x, so the rails are the vertical offsets
of the sample points and the seeded ports are `a0` at the first point
(orientation reversed) and `b0` at the last point. -/
def pathPattern (pts : List Pt) (w : ℚ) : Pattern :=
  { polys := [pts.map (fun p => ⟨p.x, p.y - w / 2⟩) ++
              (pts.map (fun p => ⟨p.x, p.y + w / 2⟩)).reverse],
    port :=
      match pts with
      | [] => []
      | p :: rest =>
          let q := rest.getLastD p
          [("a0", { x := p.x, y := p.y, a := -180, w := w }),
           ("b0", { x := q.x, y := q.y, a := 0, w := w })] }

/-- Modelled from the spec: the `straight(l)` trajectory of the Curve
Generator — "a straight segment of given length", starting at the origin and
heading in +x. -/
def straightCurve (l : ℚ) : List Pt := [⟨0, 0⟩, ⟨l, 0⟩]

/-- Modelled from the spec: the directional-coupler trajectory produced by
`parametric.dc` (source not in the sample): "two Euler/bezier-blended bends
bringing two waveguides from interport separation down to a specified gap,
holding them parallel for the interaction length, then symmetrically diverging
back out", together with the Curve Generator failure policy of §4.1: "a zero
or negative radius, non-positive interaction length ... must be rejected with
a domain-validation error at construction time".  The trajectory is sampled at
its segment corner points: it starts at the origin heading +x, bends to the
offset `dy` over a bend extent set by the radius (the blend fraction `euler`
shapes the interior of the bends, not their endpoints, and no claim below
depends on it), runs parallel for `interaction_l`, and bends back out. -/
def dcCurvePts (radius dy interaction_l : ℚ) : List Pt :=
  [⟨0, 0⟩, ⟨2 * radius, dy⟩, ⟨2 * radius + interaction_l, dy⟩,
   ⟨4 * radius + interaction_l, 0⟩]

/-- The validated directional-coupler trajectory (see `dcCurvePts` and the
failure policy quoted there). -/
def dcCurve (radius dy interaction_l euler : ℚ) : Except PyErr (List Pt) :=
  if radius ≤ 0 then .error (.valueError "dc: radius must be positive")
  else if interaction_l ≤ 0 then .error (.valueError "dc: interaction length must be positive")
  else .ok (dcCurvePts radius dy interaction_l)

/-- The constructor parameters of `DC` (src lines 40-48), with the source's
defaults. -/
structure DCParams where
  waveguide_w : ℚ
  bend_radius : ℚ
  interport_distance : ℚ
  gap_w : ℚ
  interaction_l : ℚ
  euler : ℚ := 1/5
  end_l : ℚ := 0
  coupler_waveguide_w : Option ℚ := none
  use_radius : Bool := false
deriving DecidableEq

/-- A constructed `DC` (the object state after `DC.__post_init__`,
src lines 50-65): the resolved coupling width, the combined pattern state
(polygons and the four assigned ports) and the two retained reference paths
(`self.lower_path`, `self.upper_path`, which are also the contents of
`self.refs`). -/
structure DCm where
  waveguide_w : ℚ
  bend_radius : ℚ
  interport_distance : ℚ
  gap_w : ℚ
  interaction_l : ℚ
  euler : ℚ
  end_l : ℚ
  coupler_waveguide_w : ℚ
  use_radius : Bool
  polys : List Poly
  port : List (String × Port)
  lower_path : Pattern
  upper_path : Pattern
deriving DecidableEq

instance : Inhabited DCm :=
  ⟨{ waveguide_w := 0, bend_radius := 0, interport_distance := 0, gap_w := 0,
     interaction_l := 0, euler := 0, end_l := 0, coupler_waveguide_w := 0,
     use_radius := false, polys := [], port := [],
     lower_path := default, upper_path := default }⟩

/-- Bounding-box extent of the constructed DC (`self.size`). -/
def DCm.size (d : DCm) : ℚ × ℚ := polysSize d.polys

/-- Bounding-box center of the constructed DC (`self.center`). -/
def DCm.center (d : DCm) : ℚ × ℚ := polysCenter d.polys

/-- Embedding of `DC.__post_init__` (src lines 50-65):
resolve `coupler_waveguide_w` (line 51), build the lower and upper coupler
paths from the `dc` trajectories at offsets `dy` and `-dy` where
`dy = (interport_distance - gap_w - coupler_waveguide_w)/2` (lines 52-55),
translate the upper path up by `interport_distance` (line 56), combine the
two paths into the pattern (line 57), assign the four ports (lines 59-62) and
overwrite the retained paths' ports with copies of them (lines 63-64). -/
def dcAssemble (p : DCParams) (lpts upts : List Pt) : DCm :=
  let w := p.coupler_waveguide_w.getD p.waveguide_w
  let lower := pathPattern lpts p.waveguide_w
  let upper := (pathPattern upts p.waveguide_w).translate 0 p.interport_distance
  let combined := lower.polys ++ upper.polys
  let sx := (polysSize combined).1
  let pa0 : Port := { x := 0, y := 0, a := -180, w := p.waveguide_w }
  let pa1 : Port := { x := 0, y := p.interport_distance, a := -180, w := p.waveguide_w }
  let pb0 : Port := { x := sx, y := 0, a := 0, w := p.waveguide_w }
  let pb1 : Port := { x := sx, y := p.interport_distance, a := 0, w := p.waveguide_w }
  { waveguide_w := p.waveguide_w, bend_radius := p.bend_radius,
    interport_distance := p.interport_distance, gap_w := p.gap_w,
    interaction_l := p.interaction_l, euler := p.euler, end_l := p.end_l,
    coupler_waveguide_w := w, use_radius := p.use_radius,
    polys := combined,
    port := [("a0", pa0), ("a1", pa1), ("b0", pb0), ("b1", pb1)],
    lower_path := { lower with port := [("a0", pa0), ("b0", pb0)] },
    upper_path := { upper with port := [("a0", pa1), ("b0", pb1)] } }

/-- See the doc comment on `dcAssemble` above for the assembly steps; this
function adds the curve generation (and its validation) feeding them. -/
def dcPostInit (p : DCParams) : Except PyErr DCm :=
  let w := p.coupler_waveguide_w.getD p.waveguide_w
  let dy := (p.interport_distance - p.gap_w - w) / 2
  match dcCurve p.bend_radius dy p.interaction_l p.euler,
        dcCurve p.bend_radius (-dy) p.interaction_l p.euler with
  | .error e, _ => .error e
  | .ok _, .error e => .error e
  | .ok lpts, .ok upts => .ok (dcAssemble p lpts upts)

/-- The `DC` object produced by a successful construction (see
`dcPostInit_eq_ok` below). -/
def dcResult (p : DCParams) : DCm :=
  let w := p.coupler_waveguide_w.getD p.waveguide_w
  let dy := (p.interport_distance - p.gap_w - w) / 2
  dcAssemble p (dcCurvePts p.bend_radius dy p.interaction_l)
              (dcCurvePts p.bend_radius (-dy) p.interaction_l)

/-- Embedding of the `DC.interaction_points` property (src lines 67-73):
`bl = center - (interaction_l, waveguide_w + gap_w)/2`, `tl = bl + (0, ...)`,
`br = bl + (interaction_l, 0)`, `tr = tl + (interaction_l, 0)`, stacked in the
order `[bl, tl, br, tr]`. -/
def DCm.interactionPoints (d : DCm) : List Pt :=
  let c := d.center
  let bl : Pt := ⟨c.1 - d.interaction_l / 2, c.2 - (d.waveguide_w + d.gap_w) / 2⟩
  let tl : Pt := ⟨bl.x, bl.y + (d.waveguide_w + d.gap_w)⟩
  let br : Pt := ⟨bl.x + d.interaction_l, bl.y⟩
  let tr : Pt := ⟨tl.x + d.interaction_l, tl.y⟩
  [bl, tl, br, tr]

/-! ## Array (src lines 101-126)

`Array.__post_init__` manipulates `self.pitch` as a dynamically typed Python
value (`float`, `int`, tuple, or `None`), so the pitch and the products
`i * self.pitch` are embedded with their Python dynamic semantics. -/

/-- A Python value that can sit in the `pitch` attribute. -/
inductive PitchVal where
  | flt (q : ℚ)
  | int (z : ℤ)
  | pair (a b : ℚ)
  | noneV
deriving DecidableEq

/-- The result of Python's `i * pitch` for a loop index `i : ℕ`. -/
inductive MulRes where
  | num (q : ℚ)
  | tup (l : List ℚ)
deriving DecidableEq

/-- Line 122: `self.pitch = (self.pitch, self.pitch) if isinstance(self.pitch,
float) else self.pitch`.  Python's `isinstance(x, float)` is true only for
floats: an `int`, a tuple or `None` is left unchanged. -/
def pitchNormalize : PitchVal → PitchVal
  | .flt q => .pair q q
  | v => v

/-- Python's `i * pitch` for a nonnegative integer `i`: numbers multiply,
a tuple is repeated `i` times (sequence repetition), `None` is a `TypeError`. -/
def idxMulPitch (i : ℕ) : PitchVal → Except PyErr MulRes
  | .flt q => .ok (.num (i * q))
  | .int z => .ok (.num ((i : ℤ) * z))
  | .pair a b => .ok (.tup (List.replicate i [a, b]).flatten)
  | .noneV => .error (.typeError "unsupported operand type for *: int and NoneType")

/-- Modelled from the spec (§4.3): `translate(dx, dy)` shifts polygons and
ports by the scalar offsets `dx` and `dy`; the affine transform is built from
numeric entries, so a non-scalar argument is a type error. -/
def Pattern.translatePy (p : Pattern) : MulRes → MulRes → Except PyErr Pattern
  | .num dx, .num dy => .ok (p.translate dx dy)
  | _, _ => .error (.typeError "translate: offset must be a numeric scalar")

/-- The row-major index pairs `(i, j)` of the comprehension
`for i in range(m) for j in range(n)`. -/
def gridIndices (m n : ℕ) : List (ℕ × ℕ) :=
  (List.range m).flatMap (fun i => (List.range n).map (fun j => (i, j)))

/-- Left-to-right effectful map over a list (a Python comprehension whose body
can raise): the first raised exception propagates. -/
def mapME {α β : Type} (f : α → Except PyErr β) : List α → Except PyErr (List β)
  | [] => .ok []
  | a :: as =>
    match f a with
    | .error e => .error e
    | .ok b =>
      match mapME f as with
      | .error e => .error e
      | .ok bs => .ok (b :: bs)

/-- Embedding of `Array.__post_init__` (src lines 121-126): normalize the
pitch (line 122), then build one translated copy of the unit per grid index,
translating copy `(i, j)` by the Python products `(i * pitch, j * pitch)`
(lines 123-125), and merge all copies into one multi-part pattern
(`MultiPolygon`, line 123). -/
def arrayPostInit (unit : Pattern) (grid_shape : ℕ × ℕ) (pitch : PitchVal) :
    Except PyErr Pattern := do
  let pitch' := pitchNormalize pitch
  let copies ← mapME (fun ij => do
    let dx ← idxMulPitch ij.1 pitch'
    let dy ← idxMulPitch ij.2 pitch'
    unit.translatePy dx dy) (gridIndices grid_shape.1 grid_shape.2)
  pure { polys := (copies.map Pattern.polys).flatten, port := [] }

/-! ## StraightGrating (src lines 158-191) and FocusingGrating (192-245) -/

/-- Layer names (`foundry.CommonLayer`, a lookup table per the spec, modelled
as plain strings). -/
def RIDGE_SI : String := "ridge_si"

/-- The rib/slab layer name. -/
def RIB_SI : String := "rib_si"

/-- An axis-aligned rectangle polygon with the given corner coordinates. -/
def rectPoly (x0 y0 x1 y1 : ℚ) : Poly :=
  [⟨x0, y0⟩, ⟨x1, y0⟩, ⟨x1, y1⟩, ⟨x0, y1⟩]

/-- Modelled from the spec: `Box(extent)` — a rectangle pattern of the given
extent, placed (as in the source library) centered on the origin, with no
ports. -/
def boxPattern (extent : ℚ × ℚ) : Pattern :=
  { polys := [rectPoly (-extent.1 / 2) (-extent.2 / 2) (extent.1 / 2) (extent.2 / 2)],
    port := [] }

/-- Modelled from the spec (§4.3): `hstack` — "horizontal concatenation of
bounding extents": the pattern is translated so that its bounding box starts
where `other`'s bounding box ends. -/
def Pattern.hstack (p other : Pattern) : Pattern :=
  p.translate (polysMaxX other.polys - polysMinX p.polys) 0

/-- Modelled from the spec (§4.3): `buffer` — "isotropic polygon growth/shrink
by a signed offset", modelled on each polygon's bounding box.  No claim below
depends on the buffered geometry. -/
def Pattern.buffer (p : Pattern) (d : ℚ) : Pattern :=
  { polys := p.polys.map (fun poly =>
      rectPoly (foldMin Pt.x poly - d) (foldMin Pt.y poly - d)
               (foldMax Pt.x poly + d) (foldMax Pt.y poly + d)),
    port := p.port }

/-- Modelled from the spec (§4.3): `striped` — "generation of periodic
striping (used for grating teeth) at a given stripe width and pitch vector":
stripe boxes of width `stripe_w` are placed at multiples of the pitch's
x-component across the pattern's bounding box.  It performs no validation of
the stripe width (the spec assigns parameter validation to the component
constructors, §7); a non-positive `stripe_w` yields degenerate stripe boxes. -/
def Pattern.striped (p : Pattern) (stripe_w : ℚ) (pitch : ℚ × ℚ) : Pattern :=
  let x0 := polysMinX p.polys
  let n : ℕ := if pitch.1 ≤ 0 then 0
               else (((polysMaxX p.polys - x0) / pitch.1).floor.toNat + 1)
  { polys := (List.range n).map (fun k =>
      rectPoly (x0 + k * pitch.1) (polysMinY p.polys)
               (x0 + k * pitch.1 + stripe_w) (polysMaxY p.polys)),
    port := [] }

/-- The constructor parameters of `StraightGrating` (src lines 175-183), with
the source's defaults.  (`num_periods` is declared on the dataclass but never
read by `__post_init__`.) -/
structure SGParams where
  extent : ℚ × ℚ
  waveguide : Pattern
  pitch : ℚ
  duty_cycle : ℚ := 1/2
  rib_grow : ℚ := 0
  num_periods : Option ℕ := none
  name : String := "straight_grating"
  ridge : String := RIDGE_SI
  slab : String := RIB_SI
deriving DecidableEq

/-- A constructed `StraightGrating`: the computed stripe width, the layered
member patterns of the device, and the device-level port map. -/
structure SGm where
  stripe_w : ℚ
  name : String
  patternToLayer : List (Pattern × String)
  port : List (String × Port)
deriving DecidableEq

instance : Inhabited SGm := ⟨{ stripe_w := 0, name := "", patternToLayer := [], port := [] }⟩

/-- Embedding of `StraightGrating.__post_init__` (src lines 185-191):
`stripe_w = pitch * (1 - duty_cycle)` (line 186, with no validation of the
duty cycle), the slab as the buffered box hstacked on the waveguide (187), the
grating teeth as the striped box (188), the `Device` construction from the
three layered members (189), and the device port `a0` copied from the
waveguide's `a0` (190, a missing port key raising per spec §7). -/
def straightGratingPostInit (p : SGParams) : Except PyErr SGm :=
  let stripe_w := p.pitch * (1 - p.duty_cycle)
  let slab := ((boxPattern p.extent).hstack p.waveguide).buffer p.rib_grow
  let grating := ((boxPattern p.extent).hstack p.waveguide).striped stripe_w (p.pitch, 0)
  match pfind p.waveguide.port "a0" with
  | none => .error (.keyError "a0")
  | some a0 =>
    .ok { stripe_w := stripe_w, name := p.name,
          patternToLayer := [(slab, p.slab), (grating, p.ridge), (p.waveguide, p.ridge)],
          port := [("a0", a0)] }

/-- The constructor parameters of `FocusingGrating` (src lines 215-230), with
the source's defaults (the foundry indices `OXIDE.n`, `SILICON.n` are opaque
configuration; their values do not enter any claim). -/
structure FGParams where
  angle : ℚ
  waveguide_w : ℚ
  waveguide_l : ℚ
  n_clad : ℚ := 29/20
  n_core : ℚ := 7/2
  min_period : ℕ := 10
  num_periods : ℕ := 20
  wavelength : ℚ := 31/20
  fiber_angle : ℚ := 8
  duty_cycle : ℚ := 1/2
  grating_frac : ℚ := 1
  num_evaluations : ℕ := 16
  rib_grow : ℚ := 1
  name : String := "focusing_grating"
  ridge : String := RIDGE_SI
  slab : String := RIB_SI
deriving DecidableEq

/-- Modelled from the spec: `grating_arc` (in `parametric.py`, not in the
sample) computes, for period index `m`, "a radiating arc whose radius
satisfies the grating equation relating wavelength, effective indices of
core/clad, and the angle between the input waveguide mode and the diffracted
fiber mode" (§4.4), subject to the Curve Generator failure policy of §4.1:
a "duty cycle outside (0,1) must be rejected with a domain-validation error at
construction time, not silently clamped".  The arc's exact point values
involve the transcendental grating equation and are fixed by no claim below;
the arc is modelled as a two-point sampled arc at radius index `m`. -/
def gratingArc (angle duty_cycle n_core n_clad fiber_angle wavelength : ℚ)
    (m : ℕ) (num_evaluations : ℕ) : Except PyErr Poly :=
  if duty_cycle ≤ 0 ∨ 1 ≤ duty_cycle then
    .error (.valueError "grating_arc: duty cycle must lie in (0, 1)")
  else
    .ok [⟨(m : ℚ), 0⟩, ⟨0, (m : ℚ)⟩]

/-- A constructed `WaveguideDevice` in the value model (src lines 151-155):
the layered members and the device ports copied from the ridge waveguide. -/
structure WGDm where
  patternToLayer : List (Pattern × String)
  port : List (String × Port)
deriving DecidableEq

/-- Embedding of `WaveguideDevice.__post_init__` (src lines 151-155) in the
value model: the ridge (and optional slab) members are layered, and the device
ports `a0`, `b0` are copies of the ridge waveguide's (line 155; a missing port
key raises per spec §7). -/
def waveguideDevicePostInit (ridge_waveguide : Pattern) (slab_waveguide : Option Pattern)
    (ridge slab : String) : Except PyErr WGDm :=
  let members := [(ridge_waveguide, ridge)] ++
    (match slab_waveguide with
     | some sw => [(sw, slab)]
     | none => [])
  match pfind ridge_waveguide.port "a0", pfind ridge_waveguide.port "b0" with
  | some a0, some b0 => .ok { patternToLayer := members, port := [("a0", a0), ("b0", b0)] }
  | none, _ => .error (.keyError "a0")
  | _, none => .error (.keyError "b0")

/-- Translate every member pattern and every port of a `WaveguideDevice`
(the spec's Device transforms "delegate to all member Patterns uniformly"). -/
def WGDm.translate (d : WGDm) (dx dy : ℚ) : WGDm :=
  { patternToLayer := d.patternToLayer.map (fun ml => (ml.1.translate dx dy, ml.2)),
    port := d.port.map (fun kv => (kv.1, kv.2.trans dx dy)) }

/-- All polygons of a `WaveguideDevice`'s members. -/
def WGDm.polys (d : WGDm) : List Poly :=
  (d.patternToLayer.map (fun ml => ml.1.polys)).flatten

/-- `halign` on a `WaveguideDevice`, delegating the bounding-box computation
to the members' combined polygons. -/
def WGDm.halignTo (d : WGDm) (x : ℚ) (left : Bool) : WGDm :=
  d.translate (x - (if left then polysMinX d.polys else polysMaxX d.polys)) 0

/-- A constructed `FocusingGrating`: the layered members and the device-level
port map. -/
structure FGm where
  name : String
  patternToLayer : List (Pattern × String)
  waveguide : WGDm
  port : List (String × Port)
deriving DecidableEq

instance : Inhabited FGm :=
  ⟨{ name := "", patternToLayer := [], waveguide := ⟨[], []⟩, port := [] }⟩

/-- Embedding of `FocusingGrating.__post_init__` (src lines 232-245): build
the grating arcs for period indices `[min_period, min_period + num_periods)`
(lines 233-235, where the duty cycle reaches the arc generator), the sector
joining a zero column to the first arc's points (line 236, an empty arc list
raising `IndexError` at `grating_arcs[0]`), the grating pattern (237), the
waveguide stub as a `WaveguideDevice` on a straight path (238-239), the
horizontal alignment of the stub's right edge to
`|waveguide_w / tan(radians(angle)/2)|` (line 240), the layered `Device`
construction (241-243), the port `a0` copied from the waveguide's (244), and
the final `halign(0)` of the whole device (245).

The alignment distance `|waveguide_w / tan(radians(angle)/2)|` is not a
rational function of the parameters, so this control-flow model takes the
value of `tan(radians(angle)/2)` as the explicit argument `tanHalfAngle`; its
real-number value is treated by `focusingHalignArg` below. -/
def focusingGratingPostInit (p : FGParams) (tanHalfAngle : ℚ) : Except PyErr FGm := do
  let grating_arcs ← mapME (fun m =>
    gratingArc p.angle p.duty_cycle p.n_core p.n_clad p.fiber_angle p.wavelength
      m p.num_evaluations) (List.range' p.min_period p.num_periods)
  match grating_arcs with
  | [] => .error (.indexError "list index out of range")
  | arc0 :: _ =>
    let sector : Pattern := { polys := [⟨0, 0⟩ :: arc0], port := [] }
    let grating : Pattern := { polys := grating_arcs ++ sector.polys, port := [] }
    let wgPattern := pathPattern (straightCurve p.waveguide_l) p.waveguide_w
    let wgDev ← waveguideDevicePostInit wgPattern none p.ridge p.slab
    let wgDev := wgDev.halignTo (|p.waveguide_w / tanHalfAngle|) false
    match pfind wgDev.port "a0" with
    | none => .error (.keyError "a0")
    | some a0 =>
      let members := [(grating.buffer p.rib_grow, p.slab), (grating, p.ridge)] ++
        wgDev.patternToLayer
      let allPolys := (members.map (fun ml => ml.1.polys)).flatten
      let dx := 0 - polysMinX allPolys
      .ok { name := p.name,
            patternToLayer := members.map (fun ml => (ml.1.translate dx 0, ml.2)),
            waveguide := wgDev.translate dx 0,
            port := [("a0", a0.trans dx 0)] }

/-! ## TapDC (src lines 248-267) -/

/-- Modelled from the spec (§4.3): `to(port)` — "rigid transform mapping this
Pattern's designated `a0` port onto a target Port's position and *opposite*
orientation": rotate about the `a0` position by `target.a + 180 - a0.a`, then
translate `a0` onto the target position; a Pattern lacking an `a0` port
raises (spec §9: "behavior is ambiguous for Patterns lacking an 'a0' port and
should raise rather than guess"). -/
def Pattern.toPort (p : Pattern) (t : Port) : Except PyErr Pattern :=
  match pfind p.port "a0" with
  | none => .error (.keyError "a0")
  | some a0 =>
    let r := p.rotate (t.a + 180 - a0.a) ⟨a0.x, a0.y⟩
    .ok (r.translate (t.x - a0.x) (t.y - a0.y))

/-- The attribute values bound on a `TapDC` instance when `__post_init__`
starts. -/
inductive TapDCAttr where
  | dcA (d : DCm)
  | gratingA (g : Pattern)

/-- The instance attribute dictionary of a freshly initialized `TapDC`: the
two dataclass fields `dc` and `grating` (src lines 257-258).  The class
docstring documents a field `grating_pad` (line 255), but the declared field
is named `grating`. -/
def tapDCInstanceAttrs (d : DCm) (g : Pattern) : List (String × TapDCAttr) :=
  [("dc", .dcA d), ("grating", .gratingA g)]

/-- Python attribute lookup on the `TapDC` instance: a name that is not bound
raises `AttributeError`. -/
def tapDCGetattr (d : DCm) (g : Pattern) (name : String) : Except PyErr TapDCAttr :=
  match pfind (tapDCInstanceAttrs d g) name with
  | some v => .ok v
  | none => .error (.attributeError name)

/-- The grating pattern carried by a `TapDC` attribute (the dc attribute is
not a grating; the value is only ever used on the `gratingA` case). -/
def TapDCAttr.asPattern : TapDCAttr → Except PyErr Pattern
  | .gratingA g => .ok g
  | .dcA _ => .error (.typeError "expected a grating")

/-- A constructed `TapDC` (never actually produced; see
`tapDC_construction_raises`). -/
structure TapDCm where
  polys : List Poly
  port : List (String × Port)
  wg_path : Pattern

/-- Embedding of `TapDC.__post_init__` (src lines 260-267): the first two
statements read `self.grating_pad` (lines 261-262) — an attribute the
dataclass never binds, its fields being `dc` and `grating` — dock one copy
onto `dc.port['b1']` and one onto `dc.port['a1']` with `to()`, combine
(line 263), re-expose the dc's through ports `a0`/`b0` (264-265) and retain
the dc and its lower path (266-267).  Because the very first attribute lookup
fails, everything after it is unreachable. -/
def tapDCPostInit (d : DCm) (g : Pattern) : Except PyErr TapDCm := do
  let gp1 ← tapDCGetattr d g "grating_pad"
  let gp1 ← gp1.asPattern
  let b1 ← match pfind d.port "b1" with
           | some v => Except.ok v
           | none => Except.error (.keyError "b1")
  let in_grating ← gp1.toPort b1
  let gp2 ← tapDCGetattr d g "grating_pad"
  let gp2 ← gp2.asPattern
  let a1 ← match pfind d.port "a1" with
           | some v => Except.ok v
           | none => Except.error (.keyError "a1")
  let out_grating ← gp2.toPort a1
  let pa0 ← match pfind d.port "a0" with
            | some v => Except.ok v
            | none => Except.error (.keyError "a0")
  let pb0 ← match pfind d.port "b0" with
            | some v => Except.ok v
            | none => Except.error (.keyError "b0")
  pure { polys := d.polys ++ in_grating.polys ++ out_grating.polys,
         port := [("a0", pa0), ("b0", pb0)],
         wg_path := d.lower_path }

/-! ## Object-identity model of ports (for Cross and WaveguideDevice)

The spec's aliasing claims ("Ports are value objects; copying a Pattern must
deep-copy its ports") are about Python object identity, so the constructions
of `Cross` and `WaveguideDevice` are additionally embedded with `Port` objects
living in an explicit store: a port map sends names to store indices, `copy`
allocates fresh indices, and in-place transforms update the store at the
pattern's indices.  Two patterns alias a port exactly when their maps share an
index. -/

/-- A store of `Port` objects: `data i` is the object at address `i` and
`next` is the next fresh address. -/
structure PortStore where
  data : ℕ → Port
  next : ℕ

/-- Read the port object at address `i`. -/
def PortStore.get (s : PortStore) (i : ℕ) : Port := s.data i

/-- Mutate the port object at address `i` in place. -/
def PortStore.set (s : PortStore) (i : ℕ) (v : Port) : PortStore :=
  { data := fun j => if j = i then v else s.data j, next := s.next }

/-- Allocate a fresh port object, returning its address. -/
def PortStore.alloc (s : PortStore) (v : Port) : PortStore × ℕ :=
  ({ data := fun j => if j = s.next then v else s.data j, next := s.next + 1 }, s.next)

/-- Apply `f` in place to the port objects at the listed addresses. -/
def PortStore.updateAt (s : PortStore) (ids : List ℕ) (f : Port → Port) : PortStore :=
  { data := fun j => if j ∈ ids then f (s.data j) else s.data j, next := s.next }

/-- A `Pattern` whose ports are references into a `PortStore`. -/
structure ObjPattern where
  polys : List Poly
  port : List (String × ℕ)
deriving DecidableEq

instance : Inhabited ObjPattern := ⟨{ polys := [], port := [] }⟩

/-- The port addresses referenced by a pattern. -/
def ObjPattern.portIds (p : ObjPattern) : List ℕ := p.port.map Prod.snd

/-- In-place `translate` in the object model: the polygons move and the
pattern's port objects are updated in the store; the port map (the object
references) is unchanged. -/
def translateObj (s : PortStore) (p : ObjPattern) (dx dy : ℚ) : PortStore × ObjPattern :=
  (s.updateAt p.portIds (Port.trans · dx dy),
   { polys := p.polys.map (fun poly => poly.map (Pt.trans · dx dy)), port := p.port })

/-- In-place `align()` (to the origin, as in `Pattern.alignOrigin`) in the
object model. -/
def alignOriginObj (s : PortStore) (p : ObjPattern) : PortStore × ObjPattern :=
  translateObj s p (-(polysCenter p.polys).1) (-(polysCenter p.polys).2)

/-- The polygons of a pattern after one in-place `align()` to the origin. -/
def alignedPolys (ps : List Poly) : List Poly :=
  ps.map (fun poly => poly.map (Pt.trans · (-(polysCenter ps).1) (-(polysCenter ps).2)))

/-- In-place `rotate(90)` about the origin in the object model. -/
def rotate90Obj (s : PortStore) (p : ObjPattern) : PortStore × ObjPattern :=
  (s.updateAt p.portIds (Port.rot · 90 ⟨0, 0⟩),
   { polys := p.polys.map (fun poly => poly.map (Pt.rot · 90 ⟨0, 0⟩)), port := p.port })

/-- Allocate fresh copies of the port objects behind a port map (the port
part of `Pattern.copy`). -/
def copyPorts (s : PortStore) : List (String × ℕ) → PortStore × List (String × ℕ)
  | [] => (s, [])
  | (k, i) :: rest =>
    let al := s.alloc (s.get i)
    let tl := copyPorts al.1 rest
    (tl.1, (k, al.2) :: tl.2)

/-- Modelled from the spec (§4.3): `copy` — "deep-copy of polygons, ports, and
references": the polygons are duplicated by value and every port object is
re-allocated at a fresh address. -/
def copyObj (s : PortStore) (p : ObjPattern) : PortStore × ObjPattern :=
  ((copyPorts s p.port).1, { polys := p.polys, port := (copyPorts s p.port).2 })

/-- A constructed `Cross` in the object model, together with the final states
of its two member patterns (`horizontal`, which is the caller's waveguide
object itself, and `vertical`, the rotated copy). -/
structure CrossObj where
  horizontal : ObjPattern
  vertical : ObjPattern
  polys : List Poly
  port : List (String × ℕ)
deriving DecidableEq

instance : Inhabited CrossObj :=
  ⟨{ horizontal := default, vertical := default, polys := [], port := [] }⟩

/-- Embedding of `Cross.__post_init__` (src lines 91-98) in the object model:
`horizontal = self.waveguide.align()` (line 92: an in-place align of the
caller's waveguide, returning the same object), `vertical =
self.waveguide.align().copy.rotate(90)` (line 93: a second in-place align of
the same object, then a deep copy, then an in-place rotation of the copy),
the combination (94), and the port re-exposures (95-98), which assign the
member patterns' port objects themselves.  A member lacking the looked-up
port key raises per spec §7. -/
def crossPostInit (s0 : PortStore) (waveguide : ObjPattern) :
    Except PyErr (PortStore × CrossObj) :=
  let a1 := alignOriginObj s0 waveguide
  let a2 := alignOriginObj a1.1 a1.2
  let c := copyObj a2.1 a2.2
  let r := rotate90Obj c.1 c.2
  match pfind a2.2.port "a0", pfind a2.2.port "b0",
        pfind r.2.port "a0", pfind r.2.port "b0" with
  | some ha0, some hb0, some va0, some vb0 =>
    .ok (r.1, { horizontal := a2.2, vertical := r.2,
                polys := a2.2.polys ++ r.2.polys,
                port := [("a0", ha0), ("a1", va0), ("b0", hb0), ("b1", vb0)] })
  | _, _, _, _ => .error (.keyError "a0")

/-- A constructed `WaveguideDevice` in the object model. -/
structure WGDObj where
  ridge_waveguide : ObjPattern
  slab_waveguide : Option ObjPattern
  port : List (String × ℕ)
deriving DecidableEq

/-- Embedding of `WaveguideDevice.__post_init__` (src lines 151-155) in the
object model: the device port map is built from *copies* of the ridge
waveguide's `a0` and `b0` port objects (`.copy` on line 155 allocates fresh
objects with equal data). -/
def waveguideDeviceObjPostInit (s0 : PortStore) (ridge_waveguide : ObjPattern)
    (slab_waveguide : Option ObjPattern) :
    Except PyErr (PortStore × WGDObj) :=
  match pfind ridge_waveguide.port "a0", pfind ridge_waveguide.port "b0" with
  | some i0, some i1 =>
    let al0 := s0.alloc (s0.get i0)
    let al1 := al0.1.alloc (al0.1.get i1)
    .ok (al1.1, { ridge_waveguide := ridge_waveguide, slab_waveguide := slab_waveguide,
                  port := [("a0", al0.2), ("b0", al1.2)] })
  | none, _ => .error (.keyError "a0")
  | _, none => .error (.keyError "b0")

/-! ## The FocusingGrating waveguide offset over ℝ -/

/-- Embedding over `ℝ` of the horizontal alignment distance computed on
src line 240:
`np.abs(self.waveguide.port['b0'].w / np.tan(np.radians(self.angle) / 2))`,
where the stub's `b0` port width equals `waveguide_w` (the width the straight
path was swept with on line 238) and `np.radians(angle) = angle * π / 180`.
`halign(·, left=False)` places the right edge of the stub — where its `b0`
port sits — at this x-coordinate, while the grating throat apex is the zero
column prepended to the first arc (line 236), so this distance is the
separation between the stub's `b0` port and the throat apex. -/
noncomputable def focusingHalignArg (waveguide_w angle : ℝ) : ℝ :=
  |waveguide_w / Real.tan (angle * Real.pi / 180 / 2)|

/-! ## Sample inputs used by witnesses and counterexamples -/

/-- A sample valid `DC` parameter set. -/
def sampleDCParams : DCParams :=
  { waveguide_w := 1, bend_radius := 5, interport_distance := 10, gap_w := 1,
    interaction_l := 3 }

/-- The sample constructed `DC`. -/
def sampleDCm : DCm := dcResult sampleDCParams

/-- A `DC` parameter set with `gap_w = interport_distance` (so the derived
coupler offset is zero), otherwise valid. -/
def c4params : DCParams :=
  { waveguide_w := 1, bend_radius := 5, interport_distance := 10, gap_w := 10,
    interaction_l := 3 }

/-- A sample unit pattern for `Array`: the unit square. -/
def sampleUnit : Pattern := { polys := [rectPoly 0 0 1 1], port := [] }

/-- A sample waveguide pattern with `a0`/`b0` ports: a straight path of
length 3 and width 1. -/
def sampleWaveguide : Pattern := pathPattern (straightCurve 3) 1

/-- The `a0` port of `sampleWaveguide` (seeded by the path converter). -/
def sampleWgA0 : Port := { x := 0, y := 0, a := -180, w := 1 }

/-- The `StraightGrating` object produced by a successful construction. -/
def sgResult (p : SGParams) (a0 : Port) : SGm :=
  { stripe_w := p.pitch * (1 - p.duty_cycle), name := p.name,
    patternToLayer :=
      [(((boxPattern p.extent).hstack p.waveguide).buffer p.rib_grow, p.slab),
       (((boxPattern p.extent).hstack p.waveguide).striped (p.pitch * (1 - p.duty_cycle))
          (p.pitch, 0), p.ridge),
       (p.waveguide, p.ridge)],
    port := [("a0", a0)] }

/-- `StraightGrating` parameters with an out-of-range duty cycle of 2. -/
def c8sgParams : SGParams :=
  { extent := (4, 4), waveguide := sampleWaveguide, pitch := 1, duty_cycle := 2 }

/-- `FocusingGrating` parameters with an out-of-range duty cycle of 2. -/
def c8fgParams : FGParams :=
  { angle := 90, waveguide_w := 1, waveguide_l := 3, duty_cycle := 2 }

/-- An empty port store. -/
def emptyStore : PortStore := { data := fun _ => default, next := 0 }

instance : Inhabited PortStore := ⟨emptyStore⟩

/-- A store holding two port objects (addresses 0 and 1). -/
def store2 (p0 p1 : Port) : PortStore :=
  { data := fun i => if i = 0 then p0 else if i = 1 then p1 else default, next := 2 }

/-- The sample waveguide object for the `Cross` aliasing counterexample: a
square already centered on the origin (so the in-place aligns are exact
no-ops and only the aliasing is at stake), with ports `a0 ↦ 0`, `b0 ↦ 1`. -/
def c9wv : ObjPattern := { polys := [rectPoly (-1) (-1) 1 1], port := [("a0", 0), ("b0", 1)] }

/-- The port objects of `c9wv`. -/
def c9store : PortStore := store2 { x := -1, y := 0, a := -180, w := 1 } { x := 1, y := 0 }

/-- The result of constructing the sample `Cross` (the success is proved in
the counterexample theorem). -/
def c9res : PortStore × CrossObj :=
  match crossPostInit c9store c9wv with
  | .ok r => r
  | .error _ => default

/-- The mutated port value written through the composite-level port in the
aliasing counterexample. -/
def c9mut : Port := { x := 5, y := 5, a := 0, w := 2 }

/-- The sample waveguide object for the `Cross` frame-effect counterexample:
a square away from the origin (center (11, 11)), with ports `a0 ↦ 0`,
`b0 ↦ 1`. -/
def c6wv : ObjPattern := { polys := [rectPoly 10 10 12 12], port := [("a0", 0), ("b0", 1)] }

/-- The port objects of `c6wv`. -/
def c6store : PortStore := store2 { x := 10, y := 11, a := -180, w := 1 } { x := 12, y := 11 }

/-- The result of constructing the `Cross` on `c6wv`. -/
def c6res : PortStore × CrossObj :=
  match crossPostInit c6store c6wv with
  | .ok r => r
  | .error _ => default

instance : Inhabited WGDObj :=
  ⟨{ ridge_waveguide := default, slab_waveguide := none, port := [] }⟩

/-- The result of constructing the sample `WaveguideDevice` on `c9wv` (the
success is proved where it is used). -/
def c9wdRes : PortStore × WGDObj :=
  match waveguideDeviceObjPostInit c9store c9wv none with
  | .ok r => r
  | .error _ => default

/-! ## Helper lemmas -/

/-- With a positive radius and interaction length the coupler trajectory is
produced without error. -/
theorem dcCurve_ok (radius dy interaction_l euler : ℚ)
    (hr : 0 < radius) (hl : 0 < interaction_l) :
    dcCurve radius dy interaction_l euler = .ok (dcCurvePts radius dy interaction_l) := by
  unfold dcCurve
  rw [if_neg (not_le.mpr hr), if_neg (not_le.mpr hl)]

/-- With a positive radius and interaction length, `DC` construction succeeds
and produces `dcResult`. -/
theorem dcPostInit_eq_ok (p : DCParams) (hr : 0 < p.bend_radius) (hl : 0 < p.interaction_l) :
    dcPostInit p = .ok (dcResult p) := by
  simp only [dcPostInit, dcResult, dcCurve_ok _ _ _ _ hr hl]

/-- Every successfully constructed `DC` is `dcResult` of its parameters. -/
theorem dcPostInit_ok_inv (p : DCParams) (d : DCm) (h : dcPostInit p = .ok d) :
    d = dcResult p := by
  by_cases hr : p.bend_radius ≤ 0
  · exfalso
    simp [dcPostInit, dcCurve, hr] at h
  · by_cases hl : p.interaction_l ≤ 0
    · exfalso
      simp [dcPostInit, dcCurve, hr, hl] at h
    · rw [dcPostInit_eq_ok p (lt_of_not_le hr) (lt_of_not_le hl)] at h
      injection h with h'
      exact h'.symm

/-- `dcPostInit` succeeds on the sample parameters. -/
theorem sampleDC_ok : dcPostInit sampleDCParams = .ok sampleDCm :=
  dcPostInit_eq_ok _ (by norm_num [sampleDCParams]) (by norm_num [sampleDCParams])

theorem qmin2_add (a b c : ℚ) : qmin2 (a + c) (b + c) = qmin2 a b + c := by
  simp only [qmin2, add_le_add_iff_right]
  split_ifs <;> rfl

theorem qmax2_add (a b c : ℚ) : qmax2 (a + c) (b + c) = qmax2 a b + c := by
  simp only [qmax2, add_le_add_iff_right]
  split_ifs <;> rfl

theorem foldl_qmin2_shift (f : Pt → ℚ) (g : Pt → Pt) (c : ℚ)
    (hg : ∀ p, f (g p) = f p + c) (t : List Pt) :
    ∀ x : ℚ, (t.map g).foldl (fun acc q => qmin2 acc (f q)) (x + c) =
      t.foldl (fun acc q => qmin2 acc (f q)) x + c := by
  induction t with
  | nil => intro x; rfl
  | cons a t ih =>
    intro x
    simp only [List.map_cons, List.foldl_cons, hg]
    rw [qmin2_add, ih]

theorem foldl_qmax2_shift (f : Pt → ℚ) (g : Pt → Pt) (c : ℚ)
    (hg : ∀ p, f (g p) = f p + c) (t : List Pt) :
    ∀ x : ℚ, (t.map g).foldl (fun acc q => qmax2 acc (f q)) (x + c) =
      t.foldl (fun acc q => qmax2 acc (f q)) x + c := by
  induction t with
  | nil => intro x; rfl
  | cons a t ih =>
    intro x
    simp only [List.map_cons, List.foldl_cons, hg]
    rw [qmax2_add, ih]

theorem foldMin_shift (f : Pt → ℚ) (g : Pt → Pt) (c : ℚ)
    (hg : ∀ p, f (g p) = f p + c) (l : List Pt) (hl : l ≠ []) :
    foldMin f (l.map g) = foldMin f l + c := by
  cases l with
  | nil => exact absurd rfl hl
  | cons a t =>
    simp only [List.map_cons, foldMin, hg]
    exact foldl_qmin2_shift f g c hg t (f a)

theorem foldMax_shift (f : Pt → ℚ) (g : Pt → Pt) (c : ℚ)
    (hg : ∀ p, f (g p) = f p + c) (l : List Pt) (hl : l ≠ []) :
    foldMax f (l.map g) = foldMax f l + c := by
  cases l with
  | nil => exact absurd rfl hl
  | cons a t =>
    simp only [List.map_cons, foldMax, hg]
    exact foldl_qmax2_shift f g c hg t (f a)

theorem ptsOf_map (f : Pt → Pt) (ps : List Poly) :
    ptsOf (ps.map (fun poly => poly.map f)) = (ptsOf ps).map f := by
  induction ps with
  | nil => rfl
  | cons p t ih =>
    simp only [ptsOf, List.map_cons, List.flatten_cons, List.map_append] at *
    rw [ih]

/-- After one in-place `align()` to the origin, a nonempty pattern's
bounding-box center is the origin. -/
theorem polysCenter_aligned (ps : List Poly) (h : ptsOf ps ≠ []) :
    polysCenter (alignedPolys ps) = (0, 0) := by
  have hx : ∀ p : Pt, (Pt.trans p (-(polysCenter ps).1) (-(polysCenter ps).2)).x =
      p.x + -(polysCenter ps).1 := fun p => rfl
  have hy : ∀ p : Pt, (Pt.trans p (-(polysCenter ps).1) (-(polysCenter ps).2)).y =
      p.y + -(polysCenter ps).2 := fun p => rfl
  have hpts : ptsOf (alignedPolys ps) =
      (ptsOf ps).map (Pt.trans · (-(polysCenter ps).1) (-(polysCenter ps).2)) :=
    ptsOf_map _ ps
  simp only [polysCenter, polysMinX, polysMaxX, polysMinY, polysMaxY, alignedPolys] at *
  rw [hpts, foldMin_shift _ _ _ hx _ h, foldMax_shift _ _ _ hx _ h,
      foldMin_shift _ _ _ hy _ h, foldMax_shift _ _ _ hy _ h]
  rw [Prod.mk.injEq]
  exact ⟨by ring, by ring⟩

theorem alignOriginObj_snd (s : PortStore) (p : ObjPattern) :
    (alignOriginObj s p).2 = { polys := alignedPolys p.polys, port := p.port } := rfl

/-- Aligning a pattern whose bounding-box center is already the origin does
not move its polygons. -/
theorem alignedPolys_of_center_zero (ps : List Poly) (hc : polysCenter ps = (0, 0)) :
    alignedPolys ps = ps := by
  unfold alignedPolys
  rw [hc]
  simp [Pt.trans]

/-- A second in-place `align()` to the origin is a no-op on the pattern. -/
theorem alignOriginObj_idem (s s' : PortStore) (p : ObjPattern) (hne : ptsOf p.polys ≠ []) :
    (alignOriginObj s' (alignOriginObj s p).2).2 = (alignOriginObj s p).2 := by
  rw [alignOriginObj_snd s p, alignOriginObj_snd]
  show ({ polys := alignedPolys (alignedPolys p.polys), port := p.port } : ObjPattern) = _
  rw [alignedPolys_of_center_zero _ (polysCenter_aligned p.polys hne)]

/-- Inversion for `crossPostInit`: the `horizontal` member of a successfully
constructed `Cross` is the caller's waveguide aligned once (the second
in-place align being a no-op). -/
theorem crossPostInit_horizontal (s : PortStore) (wv : ObjPattern)
    (hne : ptsOf wv.polys ≠ []) (res : PortStore × CrossObj)
    (h : crossPostInit s wv = .ok res) :
    res.2.horizontal = { polys := alignedPolys wv.polys, port := wv.port } := by
  simp only [crossPostInit] at h
  split at h
  · injection h with h'
    rw [← h']
    show (alignOriginObj (alignOriginObj s wv).1 (alignOriginObj s wv).2).2 =
      { polys := alignedPolys wv.polys, port := wv.port }
    rw [alignOriginObj_idem s (alignOriginObj s wv).1 wv hne]
    exact alignOriginObj_snd s wv
  · exact Except.noConfusion h

/-- Inversion for `crossPostInit`: the composite-level `a0` port is the same
port object (the same store address) as the horizontal member's `a0`. -/
theorem crossPostInit_alias (cs : PortStore) (wv : ObjPattern)
    (cres : PortStore × CrossObj) (hc : crossPostInit cs wv = .ok cres) :
    pfind cres.2.port "a0" = pfind cres.2.horizontal.port "a0" := by
  simp only [crossPostInit] at hc
  split at hc
  · rename_i ha0 hb0 va0 vb0 heq0 heq1 heq2 heq3
    injection hc with h'
    rw [← h']
    show pfind [("a0", ha0), ("a1", va0), ("b0", hb0), ("b1", vb0)] "a0" =
      pfind (alignOriginObj (alignOriginObj cs wv).1 (alignOriginObj cs wv).2).2.port "a0"
    rw [heq0]
    rfl
  · exact Except.noConfusion hc

/-! ## Claim theorems -/

/-- **C1** (code_bug): the claim says `TapDC(d, g)` succeeds, docking two
grating copies onto the DC's `b1` and `a1` ports and exposing exactly the
DC's `a0`/`b0`; the code instead raises `AttributeError` for every input,
because `__post_init__` reads `self.grating_pad` while the dataclass field
(documented as `grating_pad` in the class docstring) is declared as
`grating`. -/
theorem tapDC_construction_raises (d : DCm) (g : Pattern) :
    tapDCPostInit d g = Except.error (PyErr.attributeError "grating_pad") := rfl

/-- **C3** (code_bug): the claim says `Array` construction succeeds for any
scalar or pair pitch, tiling m·n translated copies; for a float pitch
(here 1.0 on a 2×2 grid) the code first turns the pitch into a pair and then
computes `i * self.pitch` — Python sequence repetition producing a tuple —
which reaches `translate` as a non-scalar offset and raises. -/
theorem array_float_pitch_raises :
    arrayPostInit sampleUnit (2, 2) (PitchVal.flt 1) =
      Except.error (PyErr.typeError "translate: offset must be a numeric scalar") := rfl

/-- **C4 counterexample**: with `gap_w = interport_distance = 10` (and
otherwise valid parameters) the claim says construction raises a validation
error; instead `dcPostInit` returns a constructed `DC`. -/
theorem dc_gap_validation_counterexample :
    c4params.interport_distance ≤ c4params.gap_w ∧
    dcPostInit c4params = .ok (dcResult c4params) :=
  ⟨by norm_num [c4params],
   dcPostInit_eq_ok _ (by norm_num [c4params]) (by norm_num [c4params])⟩

/-- **C4** (corrected): `DC.__post_init__` performs no validation of
`gap_w` against `interport_distance`: for every parameter set with positive
bend radius and interaction length and `gap_w ≥ interport_distance`,
construction succeeds, silently producing the inverted geometry whose coupler
offset `dy = (interport_distance − gap_w − coupler_waveguide_w)/2` is zero or
negative. -/
theorem dc_no_gap_validation (p : DCParams)
    (hr : 0 < p.bend_radius) (hl : 0 < p.interaction_l)
    (hg : p.interport_distance ≤ p.gap_w) (hw : 0 ≤ p.waveguide_w)
    (hc : p.coupler_waveguide_w = none) :
    ∃ d, dcPostInit p = .ok d ∧ d.coupler_waveguide_w = p.waveguide_w ∧
      (p.interport_distance - p.gap_w - d.coupler_waveguide_w) / 2 ≤ 0 := by
  refine ⟨dcResult p, dcPostInit_eq_ok p hr hl, ?_, ?_⟩
  · show (p.coupler_waveguide_w.getD p.waveguide_w) = p.waveguide_w
    rw [hc]
    rfl
  · show (p.interport_distance - p.gap_w - p.coupler_waveguide_w.getD p.waveguide_w) / 2 ≤ 0
    rw [hc]
    show (p.interport_distance - p.gap_w - p.waveguide_w) / 2 ≤ 0
    linarith

/-- **C4 witness**: the amended statement at the concrete parameters of the
counterexample. -/
theorem dc_no_gap_validation_witness :
    ∃ d, dcPostInit c4params = .ok d ∧ d.coupler_waveguide_w = c4params.waveguide_w ∧
      (c4params.interport_distance - c4params.gap_w - d.coupler_waveguide_w) / 2 ≤ 0 :=
  dc_no_gap_validation c4params (by norm_num [c4params]) (by norm_num [c4params])
    (by norm_num [c4params]) (by norm_num [c4params]) rfl

/-- **C5** (confirmed): every successfully constructed `DC` exposes exactly
the four ports `a0 (0,0)`, `a1 (0, interport_distance)`,
`b0 (size_x, 0)`, `b1 (size_x, interport_distance)` (in that insertion
order), all of width `waveguide_w`; the `a`-side orientations differ from the
`b`-side ones by 180° modulo 360°. -/
theorem dc_port_map (p : DCParams) (d : DCm) (h : dcPostInit p = .ok d) :
    d.port = [("a0", { x := 0, y := 0, a := -180, w := p.waveguide_w }),
              ("a1", { x := 0, y := p.interport_distance, a := -180, w := p.waveguide_w }),
              ("b0", { x := d.size.1, y := 0, a := 0, w := p.waveguide_w }),
              ("b1", { x := d.size.1, y := p.interport_distance, a := 0, w := p.waveguide_w })] ∧
    (∃ k : ℤ, ∀ q0 q1, pfind d.port "a0" = some q0 → pfind d.port "b0" = some q1 →
      q0.a - q1.a = 180 + 360 * k) ∧
    (∃ k : ℤ, ∀ q0 q1, pfind d.port "a1" = some q0 → pfind d.port "b1" = some q1 →
      q0.a - q1.a = 180 + 360 * k) := by
  obtain rfl : d = dcResult p := dcPostInit_ok_inv p d h
  refine ⟨rfl, ⟨-1, ?_⟩, ⟨-1, ?_⟩⟩ <;>
  · intro q0 q1 h0 h1
    simp [dcResult, dcAssemble, pfind] at h0 h1
    rw [← h0, ← h1]
    norm_num

/-- **C5 witness**: the port map of the sample `DC`. -/
theorem dc_port_map_witness :
    sampleDCm.port = [("a0", { x := 0, y := 0, a := -180, w := (1 : ℚ) }),
              ("a1", { x := 0, y := 10, a := -180, w := (1 : ℚ) }),
              ("b0", { x := sampleDCm.size.1, y := 0, a := 0, w := (1 : ℚ) }),
              ("b1", { x := sampleDCm.size.1, y := 10, a := 0, w := (1 : ℚ) })] ∧
    (∃ k : ℤ, ∀ q0 q1, pfind sampleDCm.port "a0" = some q0 →
      pfind sampleDCm.port "b0" = some q1 → q0.a - q1.a = 180 + 360 * k) ∧
    (∃ k : ℤ, ∀ q0 q1, pfind sampleDCm.port "a1" = some q0 →
      pfind sampleDCm.port "b1" = some q1 → q0.a - q1.a = 180 + 360 * k) :=
  dc_port_map sampleDCParams sampleDCm sampleDC_ok

/-- **C7** (confirmed): when `coupler_waveguide_w` is left unset, it resolves
to `waveguide_w` after construction, and the two coupler trajectories are the
mirrored `dc` curves at offsets `+dy` and `−dy` with
`dy = (interport_distance − gap_w − coupler_waveguide_w)/2`, each swept into
a polygon at width `waveguide_w`, the upper path then translated up by
exactly `interport_distance`. -/
theorem dc_coupler_default_and_mirror (p : DCParams) (d : DCm)
    (hc : p.coupler_waveguide_w = none) (h : dcPostInit p = .ok d) :
    d.coupler_waveguide_w = p.waveguide_w ∧
    (∃ lpts upts,
      dcCurve p.bend_radius ((p.interport_distance - p.gap_w - d.coupler_waveguide_w) / 2)
        p.interaction_l p.euler = .ok lpts ∧
      dcCurve p.bend_radius (-((p.interport_distance - p.gap_w - d.coupler_waveguide_w) / 2))
        p.interaction_l p.euler = .ok upts ∧
      d.lower_path.polys = (pathPattern lpts p.waveguide_w).polys ∧
      d.upper_path.polys =
        ((pathPattern upts p.waveguide_w).translate 0 p.interport_distance).polys) := by
  obtain rfl : d = dcResult p := dcPostInit_ok_inv p d h
  have hr : 0 < p.bend_radius := by
    by_contra hr'
    have he : dcPostInit p = .error (.valueError "dc: radius must be positive") := by
      simp [dcPostInit, dcCurve, not_lt.mp hr']
    rw [h] at he
    exact Except.noConfusion he
  have hl : 0 < p.interaction_l := by
    by_contra hl'
    have he : dcPostInit p = .error (.valueError "dc: interaction length must be positive") := by
      simp [dcPostInit, dcCurve, not_le.mpr hr, not_lt.mp hl']
    rw [h] at he
    exact Except.noConfusion he
  have hw : (dcResult p).coupler_waveguide_w = p.waveguide_w := by
    simp only [dcResult, dcAssemble, hc, Option.getD_none]
  rw [hw]
  refine ⟨rfl, ⟨_, _, dcCurve_ok _ _ _ _ hr hl, dcCurve_ok _ _ _ _ hr hl, ?_, ?_⟩⟩ <;>
  · simp only [dcResult, dcAssemble, hc, Option.getD_none]

/-- **C7 witness**: the amended-free statement at the sample parameters. -/
theorem dc_coupler_default_and_mirror_witness :
    sampleDCm.coupler_waveguide_w = (1 : ℚ) ∧
    (∃ lpts upts,
      dcCurve 5 ((10 - 1 - sampleDCm.coupler_waveguide_w) / 2) 3 (1/5) = .ok lpts ∧
      dcCurve 5 (-((10 - 1 - sampleDCm.coupler_waveguide_w) / 2)) 3 (1/5) = .ok upts ∧
      sampleDCm.lower_path.polys = (pathPattern lpts 1).polys ∧
      sampleDCm.upper_path.polys = ((pathPattern upts 1).translate 0 10).polys) :=
  dc_coupler_default_and_mirror sampleDCParams sampleDCm rfl sampleDC_ok

/-- **C10** (confirmed): `interaction_points` of every successfully
constructed `DC` returns, in the order bottom-left, top-left, bottom-right,
top-right, the four corners of the axis-aligned rectangle centered at the
pattern's center with horizontal extent `interaction_l` and vertical extent
`waveguide_w + gap_w`. -/
theorem dc_interaction_points (p : DCParams) (d : DCm) (_h : dcPostInit p = .ok d) :
    d.interactionPoints =
      [⟨d.center.1 - d.interaction_l / 2, d.center.2 - (d.waveguide_w + d.gap_w) / 2⟩,
       ⟨d.center.1 - d.interaction_l / 2, d.center.2 + (d.waveguide_w + d.gap_w) / 2⟩,
       ⟨d.center.1 + d.interaction_l / 2, d.center.2 - (d.waveguide_w + d.gap_w) / 2⟩,
       ⟨d.center.1 + d.interaction_l / 2, d.center.2 + (d.waveguide_w + d.gap_w) / 2⟩] := by
  simp only [DCm.interactionPoints, List.cons.injEq, and_true, Pt.mk.injEq]
  and_intros <;> first | trivial | ring

/-- **C2 counterexample**: at waveguide width 1 and opening angle 90°, the
horizontal offset applied to the waveguide stub (src line 240) is
`|1 / tan(45°)| = 1`, not the claimed `1 / (2·tan(45°)) = 1/2`. -/
theorem focusing_offset_counterexample :
    focusingHalignArg 1 90 ≠ 1 / (2 * Real.tan (90 * Real.pi / 360)) := by
  have h1 : (90 : ℝ) * Real.pi / 180 / 2 = Real.pi / 4 := by ring
  have h2 : (90 : ℝ) * Real.pi / 360 = Real.pi / 4 := by ring
  rw [focusingHalignArg, h1, h2, Real.tan_pi_div_four]
  norm_num

/-- **C2** (corrected): for positive waveguide width `w` and opening angle
`θ ∈ (0°, 180°)`, the horizontal offset applied to the waveguide stub equals
`w / tan(θ/2)` — exactly twice the spec's claimed `w / (2·tan(θ/2))`. -/
theorem focusing_offset_amended (w θ : ℝ) (hw : 0 < w) (h0 : 0 < θ) (h180 : θ < 180) :
    focusingHalignArg w θ = 2 * (w / (2 * Real.tan (θ * Real.pi / 360))) := by
  have harg : θ * Real.pi / 180 / 2 = θ * Real.pi / 360 := by ring
  have hpos : 0 < Real.tan (θ * Real.pi / 360) := by
    apply Real.tan_pos_of_pos_of_lt_pi_div_two
    · exact div_pos (mul_pos h0 Real.pi_pos) (by norm_num)
    · have h1 : θ * Real.pi < 180 * Real.pi :=
        mul_lt_mul_of_pos_right h180 Real.pi_pos
      have h2 : Real.pi / 2 = 180 * Real.pi / 360 := by ring
      rw [h2]
      linarith
  rw [focusingHalignArg, harg, abs_of_pos (div_pos hw hpos)]
  ring

/-- **C2 witness**: the amended offset formula at width 1 and angle 90°. -/
theorem focusing_offset_amended_witness :
    focusingHalignArg 1 90 = 2 * (1 / (2 * Real.tan (90 * Real.pi / 360))) :=
  focusing_offset_amended 1 90 (by norm_num) (by norm_num) (by norm_num)

/-- `StraightGrating` construction succeeds whenever the waveguide has an
`a0` port — for any duty cycle whatsoever. -/
theorem straightGratingPostInit_eq_ok (p : SGParams) (a0 : Port)
    (ha : pfind p.waveguide.port "a0" = some a0) :
    straightGratingPostInit p = .ok (sgResult p a0) := by
  simp only [straightGratingPostInit, sgResult, ha]

/-- **C8 counterexample**: with duty cycle 2 (outside `(0,1)`), the claim
says `StraightGrating` construction raises a domain-validation error; instead
it returns a constructed device (whose stripe width `pitch·(1−2)` is
negative). -/
theorem straight_grating_duty_counterexample :
    (1 : ℚ) ≤ c8sgParams.duty_cycle ∧
    straightGratingPostInit c8sgParams = .ok (sgResult c8sgParams sampleWgA0) :=
  ⟨by norm_num [c8sgParams], straightGratingPostInit_eq_ok c8sgParams sampleWgA0 rfl⟩

/-- **C8** (corrected): for a duty cycle outside `(0,1)`, `StraightGrating`
performs no validation — construction succeeds and returns a device whose
stripe width is `pitch·(1−duty_cycle)` (zero or negative teeth for
`duty_cycle ≥ 1`) — while `FocusingGrating` construction fails, the
out-of-range duty cycle being rejected by the grating-arc curve generator
(spec §4.1) that it invokes first. -/
theorem grating_duty_validation_amended
    (sp : SGParams) (fp : FGParams) (tanHalf : ℚ) (pa : Port)
    (hd : sp.duty_cycle ≤ 0 ∨ 1 ≤ sp.duty_cycle)
    (hd' : fp.duty_cycle ≤ 0 ∨ 1 ≤ fp.duty_cycle)
    (ha : pfind sp.waveguide.port "a0" = some pa)
    (hnp : 1 ≤ fp.num_periods) :
    (∃ sg, straightGratingPostInit sp = .ok sg ∧
       sg.stripe_w = sp.pitch * (1 - sp.duty_cycle)) ∧
    focusingGratingPostInit fp tanHalf =
      .error (.valueError "grating_arc: duty cycle must lie in (0, 1)") := by
  refine ⟨⟨sgResult sp pa, straightGratingPostInit_eq_ok sp pa ha, rfl⟩, ?_⟩
  obtain ⟨k, hk⟩ : ∃ k, fp.num_periods = k + 1 :=
    ⟨fp.num_periods - 1, (Nat.succ_pred_eq_of_pos hnp).symm⟩
  have harc : gratingArc fp.angle fp.duty_cycle fp.n_core fp.n_clad fp.fiber_angle
      fp.wavelength fp.min_period fp.num_evaluations =
      .error (.valueError "grating_arc: duty cycle must lie in (0, 1)") := by
    simp only [gratingArc, if_pos hd']
  simp only [focusingGratingPostInit, hk, List.range'_succ, mapME, harc]
  rfl

/-- **C8 witness**: the amended statement at duty cycle 2 for both grating
constructors. -/
theorem grating_duty_validation_amended_witness :
    (∃ sg, straightGratingPostInit c8sgParams = .ok sg ∧
       sg.stripe_w = c8sgParams.pitch * (1 - c8sgParams.duty_cycle)) ∧
    focusingGratingPostInit c8fgParams 1 =
      .error (.valueError "grating_arc: duty cycle must lie in (0, 1)") :=
  grating_duty_validation_amended c8sgParams c8fgParams 1 sampleWgA0
    (Or.inr (by norm_num [c8sgParams])) (Or.inr (by norm_num [c8fgParams]))
    rfl (by norm_num [c8fgParams])

/-- **C6 counterexample**: constructing a `Cross` from a waveguide whose
bounding box is the square `[10,12]²` changes the caller's pattern: its
polygons after construction are no longer those it was passed with (the
in-place `align()` on src line 92 translated them to be centered on the
origin). -/
theorem cross_mutates_caller_counterexample :
    c6res.2.horizontal.polys ≠ c6wv.polys := by
  have hne : ptsOf c6wv.polys ≠ [] := by simp [c6wv, ptsOf, rectPoly]
  have hh := crossPostInit_horizontal c6store c6wv hne c6res rfl
  rw [hh]
  intro hEq
  have h0 := congrArg (fun l => ((l.headD []).headD ({ x := 0, y := 0 } : Pt)).x) hEq
  norm_num [alignedPolys, c6wv, rectPoly, polysCenter, polysMinX, polysMaxX, polysMinY,
    polysMaxY, foldMin, foldMax, qmin2, qmax2, ptsOf, Pt.trans, List.flatten_cons] at h0

/-- **C6** (corrected): `Cross` construction does *not* leave the
caller-supplied waveguide unchanged: the in-place `align()` is applied to the
caller's object before any copy is taken, so after construction the caller's
pattern holds its origin-aligned polygons (its port map is retained, and only
the rotation is applied to a deep copy).  The caller's pattern is unchanged
only in the special case where it was already centered on the origin. -/
theorem cross_aligns_caller_waveguide (s : PortStore) (wv : ObjPattern)
    (hne : ptsOf wv.polys ≠ []) (res : PortStore × CrossObj)
    (h : crossPostInit s wv = .ok res) :
    res.2.horizontal.polys = alignedPolys wv.polys ∧
    res.2.horizontal.port = wv.port := by
  rw [crossPostInit_horizontal s wv hne res h]
  exact ⟨rfl, rfl⟩

/-- **C6 witness**: the amended statement at the concrete waveguide of the
counterexample. -/
theorem cross_aligns_caller_waveguide_witness :
    c6res.2.horizontal.polys = alignedPolys c6wv.polys ∧
    c6res.2.horizontal.port = c6wv.port :=
  cross_aligns_caller_waveguide c6store c6wv (by simp [c6wv, ptsOf, rectPoly]) c6res rfl

/-- **C9 counterexample**: in the sample `Cross`, the composite-level `a0`
port is the *same* port object (store address 0) as the horizontal member's
`a0`, so writing a new port value through the composite-level port changes
what the member pattern's `a0` reads back — the claim said the member's port
would be left unchanged. -/
theorem cross_port_alias_counterexample :
    pfind c9res.2.port "a0" = some 0 ∧
    pfind c9res.2.horizontal.port "a0" = some 0 ∧
    (c9res.1.set 0 c9mut).get 0 = c9mut ∧
    c9res.1.get 0 ≠ c9mut := by
  refine ⟨rfl, rfl, rfl, ?_⟩
  intro h
  have hx := congrArg Port.x h
  simp +decide [c9res, crossPostInit, alignOriginObj, translateObj, copyObj, copyPorts,
    rotate90Obj, PortStore.updateAt, PortStore.alloc, PortStore.get, PortStore.set,
    ObjPattern.portIds, c9store, store2, c9wv, c9mut, rectPoly, polysCenter, polysMinX,
    polysMaxX, polysMinY, polysMaxY, foldMin, foldMax, qmin2, qmax2, ptsOf, Pt.trans,
    Port.trans, pfind, List.flatten_cons] at hx

/-- **C9** (corrected): only `WaveguideDevice` exposes deep copies of its
member's ports (src line 155 calls `.copy`, allocating fresh port objects
with equal data, so mutation through a device-level port leaves the ridge
waveguide's ports unchanged and vice versa); `Cross` (src lines 95-98)
assigns the member patterns' port objects themselves to the composite port
map, so its composite-level ports alias the members' (`TapDC` would do the
same at lines 264-265, but its construction fails before reaching them — see
the C1 theorem). -/
theorem composite_port_copy_amended
    (s : PortStore) (ridge : ObjPattern) (slab : Option ObjPattern) (i0 i1 : ℕ)
    (h0 : pfind ridge.port "a0" = some i0) (h1 : pfind ridge.port "b0" = some i1)
    (hv0 : i0 < s.next) (hv1 : i1 < s.next)
    (s' : PortStore) (wd : WGDObj)
    (hwd : waveguideDeviceObjPostInit s ridge slab = .ok (s', wd))
    (cs : PortStore) (wv : ObjPattern) (cres : PortStore × CrossObj)
    (hc : crossPostInit cs wv = .ok cres) :
    (pfind wd.port "a0" = some s.next ∧ pfind wd.port "b0" = some (s.next + 1) ∧
     s.next ≠ i0 ∧ s.next + 1 ≠ i1 ∧
     s'.get s.next = s.get i0 ∧ s'.get (s.next + 1) = s.get i1 ∧
     (∀ v : Port, (s'.set s.next v).get i0 = s'.get i0) ∧
     (∀ v : Port, (s'.set i0 v).get s.next = s'.get s.next)) ∧
    pfind cres.2.port "a0" = pfind cres.2.horizontal.port "a0" := by
  refine ⟨?_, crossPostInit_alias cs wv cres hc⟩
  simp only [waveguideDeviceObjPostInit, h0, h1] at hwd
  injection hwd with hw
  injection hw with hw1 hw2
  subst hw1
  subst hw2
  refine ⟨rfl, rfl, Nat.ne_of_gt hv0, by omega, ?_, ?_, ?_, ?_⟩
  · simp [PortStore.alloc, PortStore.get]
  · simp [PortStore.alloc, PortStore.get, hv1.ne]
  · intro v
    simp [PortStore.alloc, PortStore.set, PortStore.get, hv0.ne]
  · intro v
    simp [PortStore.alloc, PortStore.set, PortStore.get, hv0.ne']

/-- **C9 witness**: the amended statement at the sample `WaveguideDevice`
(ridge ports at store addresses 0 and 1, device copies allocated at 2 and 3)
and the sample `Cross`. -/
theorem composite_port_copy_amended_witness :
    (pfind c9wdRes.2.port "a0" = some 2 ∧ pfind c9wdRes.2.port "b0" = some 3 ∧
     (2 : ℕ) ≠ 0 ∧ (3 : ℕ) ≠ 1 ∧
     c9wdRes.1.get 2 = c9store.get 0 ∧ c9wdRes.1.get 3 = c9store.get 1 ∧
     (∀ v : Port, (c9wdRes.1.set 2 v).get 0 = c9wdRes.1.get 0) ∧
     (∀ v : Port, (c9wdRes.1.set 0 v).get 2 = c9wdRes.1.get 2)) ∧
    pfind c9res.2.port "a0" = pfind c9res.2.horizontal.port "a0" :=
  composite_port_copy_amended c9store c9wv none 0 1 rfl rfl (by decide) (by decide)
    c9wdRes.1 c9wdRes.2 rfl c9store c9wv c9res rfl

/-- **C10 witness**: the interaction points of the sample `DC`. -/
theorem dc_interaction_points_witness :
    sampleDCm.interactionPoints =
      [⟨sampleDCm.center.1 - sampleDCm.interaction_l / 2,
        sampleDCm.center.2 - (sampleDCm.waveguide_w + sampleDCm.gap_w) / 2⟩,
       ⟨sampleDCm.center.1 - sampleDCm.interaction_l / 2,
        sampleDCm.center.2 + (sampleDCm.waveguide_w + sampleDCm.gap_w) / 2⟩,
       ⟨sampleDCm.center.1 + sampleDCm.interaction_l / 2,
        sampleDCm.center.2 - (sampleDCm.waveguide_w + sampleDCm.gap_w) / 2⟩,
       ⟨sampleDCm.center.1 + sampleDCm.interaction_l / 2,
        sampleDCm.center.2 + (sampleDCm.waveguide_w + sampleDCm.gap_w) / 2⟩] :=
  dc_interaction_points sampleDCParams sampleDCm sampleDC_ok

end Dphox



